import Mathlib

/-!
Verification of the filter/aggregate pipeline of the crash-data dashboard
(src/app.py).  The records, the sidebar filters (year range, collision type,
severity), the three derived aggregate views (top collision types, crashes
over time, heat-map coordinate list) and the prediction pass-through are
embedded as pure functions over lists of records.
-/

/-- Calendar timestamp of a crash record, as parsed from the CRASHDATETIME
column by pd.to_datetime. -/
structure CrashDateTime where
  year : Int
  month : Nat
  day : Nat
  deriving DecidableEq

/-- One row of the processed_crash_data table, restricted to the columns the
app reads.  A null coordinate cell is modelled as none. -/
structure CrashRecord where
  collisionType : String
  crashDateTime : CrashDateTime
  fatalInjuries : Nat
  minorInjuries : Nat
  severeInjuries : Nat
  latitude : Option Rat
  longitude : Option Rat
  weather : String
  roadwaySurface : String
  lighting : String
  primaryCollisionFactor : String
  deriving DecidableEq

/-- The sidebar selections: a collision type (the selectbox offers "All" plus
the types present), the year-range slider endpoints, and the severity
selectbox ("All" / "Fatal" / "Non-Fatal"). -/
structure FilterCriteria where
  collisionType : String
  yearMin : Int
  yearMax : Int
  severity : String
  deriving DecidableEq

/-- df['Year'] = pd.to_datetime(df['CRASHDATETIME']).dt.year -/
def CrashRecord.year (r : CrashRecord) : Int :=
  r.crashDateTime.year

/-- The year-range condition of line 41:
(df['Year'] >= selected_year[0]) & (df['Year'] <= selected_year[1]). -/
def yearKeep (lo hi : Int) (r : CrashRecord) : Bool :=
  decide (lo ≤ r.year) && decide (r.year ≤ hi)

/-- df = df[(df['Year'] >= lo) & (df['Year'] <= hi)] -/
def filterYear (lo hi : Int) (rs : List CrashRecord) : List CrashRecord :=
  rs.filter (yearKeep lo hi)

/-- if selected_collision_type != "All": df = df[df["COLLISIONTYPE"] == selected_collision_type] -/
def filterCollision (ct : String) (rs : List CrashRecord) : List CrashRecord :=
  if ct ≠ "All" then rs.filter (fun r => r.collisionType == ct) else rs

/-- if selected_severity == "Fatal": df = df[df["FATALINJURIES"] > 0]
elif selected_severity == "Non-Fatal": df = df[df["FATALINJURIES"] == 0] -/
def filterSeverity (sev : String) (rs : List CrashRecord) : List CrashRecord :=
  if sev = "Fatal" then rs.filter (fun r => decide (0 < r.fatalInjuries))
  else if sev = "Non-Fatal" then rs.filter (fun r => r.fatalInjuries == 0)
  else rs

/-- The sidebar filter block, in the order the script applies it:
year range (line 41), collision type (lines 48-49), severity (lines 51-54). -/
def filterRecords (c : FilterCriteria) (rs : List CrashRecord) : List CrashRecord :=
  filterSeverity c.severity (filterCollision c.collisionType (filterYear c.yearMin c.yearMax rs))

/-- The collision-type condition as a single boolean. -/
def collB (ct : String) (r : CrashRecord) : Bool :=
  ct == "All" || r.collisionType == ct

/-- The severity condition as a single boolean. -/
def sevB (sev : String) (r : CrashRecord) : Bool :=
  if sev = "Fatal" then decide (0 < r.fatalInjuries)
  else if sev = "Non-Fatal" then r.fatalInjuries == 0
  else true

/-- The conjunction of the three sidebar conditions. -/
def keepRecord (c : FilterCriteria) (r : CrashRecord) : Bool :=
  sevB c.severity r && collB c.collisionType r && yearKeep c.yearMin c.yearMax r

/-- The severity predicate of the spec, as a proposition. -/
def sevProp (sev : String) (r : CrashRecord) : Prop :=
  if sev = "Fatal" then 0 < r.fatalInjuries
  else if sev = "Non-Fatal" then r.fatalInjuries = 0
  else True

lemma filterRecords_eq_filter (c : FilterCriteria) (rs : List CrashRecord) :
    filterRecords c rs = rs.filter (keepRecord c) := by
  unfold filterRecords filterSeverity filterCollision filterYear keepRecord sevB collB
  by_cases h1 : c.collisionType = "All" <;>
    by_cases h2 : c.severity = "Fatal" <;>
    by_cases h3 : c.severity = "Non-Fatal" <;>
    simp [h1, h2, h3, List.filter_filter] <;>
    (apply List.filter_congr ; intro a ha ;
     simp [beq_eq_false_iff_ne.mpr h1, Bool.and_assoc])

/-- C1: a record is in the filtered set iff it is in the input and satisfies
the collision-type, year-range and severity conditions. -/
theorem filter_keeps_iff (c : FilterCriteria) (rs : List CrashRecord) (r : CrashRecord) :
    r ∈ filterRecords c rs ↔
      r ∈ rs ∧ (c.collisionType = "All" ∨ r.collisionType = c.collisionType) ∧
        (c.yearMin ≤ r.year ∧ r.year ≤ c.yearMax) ∧ sevProp c.severity r := by
  rw [filterRecords_eq_filter, List.mem_filter]
  unfold keepRecord sevB collB yearKeep sevProp
  by_cases h2 : c.severity = "Fatal" <;> by_cases h3 : c.severity = "Non-Fatal" <;>
    simp [h2, h3, and_assoc] <;> tauto

lemma filterCollision_eq_filter (ct : String) (rs : List CrashRecord) :
    filterCollision ct rs = rs.filter (collB ct) := by
  unfold filterCollision collB
  by_cases h : ct = "All"
  · simp [h]
  · refine (if_pos h).trans (List.filter_congr fun a _ => ?_)
    simp [beq_eq_false_iff_ne.mpr h]

lemma filterSeverity_eq_filter (sev : String) (rs : List CrashRecord) :
    filterSeverity sev rs = rs.filter (sevB sev) := by
  unfold filterSeverity sevB
  by_cases h2 : sev = "Fatal" <;> by_cases h3 : sev = "Non-Fatal" <;> simp [h2, h3]

lemma filterYear_eq_filter (lo hi : Int) (rs : List CrashRecord) :
    filterYear lo hi rs = rs.filter (yearKeep lo hi) :=
  rfl

/-- C2: the three sub-filters commute (all six application orders agree with
the order the script uses) and the result is a sublist of the input, hence
keeps the original relative ordering. -/
theorem filters_commute_and_preserve_order (c : FilterCriteria) (rs : List CrashRecord) :
    (filterSeverity c.severity (filterCollision c.collisionType (filterYear c.yearMin c.yearMax rs)) = filterRecords c rs ∧
     filterSeverity c.severity (filterYear c.yearMin c.yearMax (filterCollision c.collisionType rs)) = filterRecords c rs ∧
     filterCollision c.collisionType (filterSeverity c.severity (filterYear c.yearMin c.yearMax rs)) = filterRecords c rs ∧
     filterCollision c.collisionType (filterYear c.yearMin c.yearMax (filterSeverity c.severity rs)) = filterRecords c rs ∧
     filterYear c.yearMin c.yearMax (filterSeverity c.severity (filterCollision c.collisionType rs)) = filterRecords c rs ∧
     filterYear c.yearMin c.yearMax (filterCollision c.collisionType (filterSeverity c.severity rs)) = filterRecords c rs) ∧
    (filterRecords c rs).Sublist rs := by
  rw [filterRecords_eq_filter]
  refine ⟨⟨?_, ?_, ?_, ?_, ?_, ?_⟩, List.filter_sublist rs⟩ <;>
    (simp only [filterSeverity_eq_filter, filterCollision_eq_filter, filterYear_eq_filter,
                List.filter_filter] ;
     refine List.filter_congr fun a _ => ?_ ;
     unfold keepRecord ;
     simp [Bool.and_comm, Bool.and_left_comm, Bool.and_assoc])

/-- C3: with collision type "All", severity "All" and a year range that covers
every year present, the filter is the identity. -/
theorem filter_all_identity (c : FilterCriteria) (rs : List CrashRecord)
    (hct : c.collisionType = "All") (hsev : c.severity = "All")
    (hy : ∀ r ∈ rs, c.yearMin ≤ r.year ∧ r.year ≤ c.yearMax) :
    filterRecords c rs = rs := by
  rw [filterRecords_eq_filter]
  refine List.filter_eq_self.mpr fun a ha => ?_
  unfold keepRecord sevB collB yearKeep
  simp [hct, hsev, (hy a ha).1, (hy a ha).2]

/-- A sample record used to instantiate the universally quantified theorems. -/
def sampleRec : CrashRecord :=
  { collisionType := "Rear End"
    crashDateTime := ⟨2020, 5, 1⟩
    fatalInjuries := 0
    minorInjuries := 1
    severeInjuries := 0
    latitude := some 37
    longitude := some (-121)
    weather := "Clear"
    roadwaySurface := "Dry"
    lighting := "Daylight"
    primaryCollisionFactor := "Speeding" }

/-- Criteria that keep everything in a 2019-2021 data set. -/
def cAll : FilterCriteria := ⟨"All", 2019, 2021, "All"⟩

theorem filter_all_identity_witness :
    filterRecords cAll [sampleRec] = [sampleRec] :=
  filter_all_identity cAll [sampleRec] (by decide) (by decide) (by decide)

/-- C4: filtering with the same criteria twice gives the same result as once. -/
theorem filter_idempotent (c : FilterCriteria) (rs : List CrashRecord) :
    filterRecords c (filterRecords c rs) = filterRecords c rs := by
  simp [filterRecords_eq_filter, List.filter_filter, Bool.and_self]

/-- C9: the year of a record is a deterministic function of its timestamp,
the year-range condition includes both endpoints, and a degenerate range with
yearMin = yearMax keeps exactly the records of that year. -/
theorem year_range_inclusive (c : FilterCriteria) (r : CrashRecord)
    (hle : c.yearMin ≤ c.yearMax) (hr : r.year = c.yearMin ∨ r.year = c.yearMax) :
    (∀ r2 : CrashRecord, r2.crashDateTime = r.crashDateTime → r2.year = r.year) ∧
    yearKeep c.yearMin c.yearMax r = true ∧
    (∀ (y : Int) (r2 : CrashRecord), yearKeep y y r2 = true ↔ r2.year = y) := by
  refine ⟨fun r2 h => ?_, ?_, fun y r2 => ?_⟩
  · unfold CrashRecord.year
    rw [h]
  · unfold yearKeep
    rcases hr with h | h <;> simp [h] <;> omega
  · unfold yearKeep
    simp
    omega

/-- Criteria whose year range has the sample record's year as lower endpoint. -/
def cEdge : FilterCriteria := ⟨"All", 2020, 2021, "All"⟩

theorem year_range_inclusive_witness :
    (∀ r2 : CrashRecord, r2.crashDateTime = sampleRec.crashDateTime → r2.year = sampleRec.year) ∧
    yearKeep 2020 2021 sampleRec = true ∧
    (∀ (y : Int) (r2 : CrashRecord), yearKeep y y r2 = true ↔ r2.year = y) :=
  year_range_inclusive cEdge sampleRec (by decide) (by decide)

/-- The distinct elements of a list in order of first appearance: the key
sequence the hash-based value_counts / groupby of pandas starts from. -/
def firstSeen {α : Type} [DecidableEq α] : List α → List α
  | [] => []
  | a :: l => a :: (firstSeen l).filter (fun b => b != a)

lemma mem_firstSeen {α : Type} [DecidableEq α] (x : α) :
    ∀ l : List α, x ∈ firstSeen l ↔ x ∈ l := by
  intro l
  induction l with
  | nil => simp [firstSeen]
  | cons a l ih =>
    by_cases hx : x = a
    · simp [firstSeen, hx]
    · simp [firstSeen, hx, List.mem_filter, ih]

lemma firstSeen_nodup {α : Type} [DecidableEq α] : ∀ l : List α, (firstSeen l).Nodup
  | [] => by simp [firstSeen]
  | a :: l => by
    simp only [firstSeen, List.nodup_cons]
    refine ⟨fun ha => ?_, (firstSeen_nodup l).filter _⟩
    have hb := (List.mem_filter.mp ha).2
    simp at hb

lemma firstSeen_pairwise_indexOf {α : Type} [DecidableEq α] :
    ∀ l : List α, (firstSeen l).Pairwise (fun a b => l.indexOf a < l.indexOf b)
  | [] => by simp [firstSeen]
  | a :: l => by
    simp only [firstSeen]
    refine List.Pairwise.cons (fun b hb => ?_) ?_
    · have hbne : b ≠ a := by simpa using (List.mem_filter.mp hb).2
      rw [List.indexOf_cons_self, List.indexOf_cons_ne _ (Ne.symm hbne)]
      exact Nat.succ_pos _
    · have hp := (firstSeen_pairwise_indexOf l).filter (fun b => b != a)
      refine List.Pairwise.imp_of_mem ?_ hp
      intro x y hx hy hxy
      have hxa : x ≠ a := by simpa using (List.mem_filter.mp hx).2
      have hya : y ≠ a := by simpa using (List.mem_filter.mp hy).2
      rw [List.indexOf_cons_ne _ (Ne.symm hxa), List.indexOf_cons_ne _ (Ne.symm hya)]
      exact Nat.succ_lt_succ hxy

/-- Number of records of a given collision type. -/
def catCount (rs : List CrashRecord) (c : String) : Nat :=
  rs.countP (fun r => r.collisionType == c)

/-- The category/count pairs of value_counts, in first-appearance order. -/
def catCounts (rs : List CrashRecord) : List (String × Nat) :=
  (firstSeen (rs.map CrashRecord.collisionType)).map (fun c => (c, catCount rs c))

/-- Insert a pair before the first entry whose count is not larger: the step
of a stable descending sort by count. -/
def insCnt (a : String × Nat) : List (String × Nat) → List (String × Nat)
  | [] => [a]
  | b :: l => if b.2 ≤ a.2 then a :: b :: l else b :: insCnt a l

/-- Stable sort by descending count. -/
def sortCnt : List (String × Nat) → List (String × Nat)
  | [] => []
  | a :: l => insCnt a (sortCnt l)

/-- value_counts sorted descending, truncated: .index[:n] with the counts. -/
def topCategories (rs : List CrashRecord) (n : Nat) : List (String × Nat) :=
  (sortCnt (catCounts rs)).take n

/-- Index of the first record with the given collision type. -/
def firstIdx (rs : List CrashRecord) (c : String) : Nat :=
  (rs.map CrashRecord.collisionType).indexOf c

lemma mem_insCnt (x a : String × Nat) :
    ∀ l : List (String × Nat), x ∈ insCnt a l ↔ x = a ∨ x ∈ l := by
  intro l
  induction l with
  | nil => simp [insCnt]
  | cons b l ih =>
    unfold insCnt
    by_cases h : b.2 ≤ a.2
    · rw [if_pos h]
      simp
    · rw [if_neg h]
      simp [ih]
      tauto

lemma mem_sortCnt (x : String × Nat) :
    ∀ l : List (String × Nat), x ∈ sortCnt l ↔ x ∈ l := by
  intro l
  induction l with
  | nil => simp [sortCnt]
  | cons a l ih => simp [sortCnt, mem_insCnt, ih]

lemma length_insCnt (a : String × Nat) :
    ∀ l : List (String × Nat), (insCnt a l).length = l.length + 1 := by
  intro l
  induction l with
  | nil => rfl
  | cons b l ih =>
    unfold insCnt
    by_cases h : b.2 ≤ a.2 <;> simp [h, ih]

lemma length_sortCnt : ∀ l : List (String × Nat), (sortCnt l).length = l.length := by
  intro l
  induction l with
  | nil => rfl
  | cons a l ih => simp [sortCnt, length_insCnt, ih]

lemma insCnt_pairwise (φ : String × Nat → Nat) (a : String × Nat)
    (l : List (String × Nat))
    (hl : l.Pairwise (fun x y => y.2 < x.2 ∨ (x.2 = y.2 ∧ φ x < φ y)))
    (ha : ∀ x ∈ l, a.2 = x.2 → φ a < φ x) :
    (insCnt a l).Pairwise (fun x y => y.2 < x.2 ∨ (x.2 = y.2 ∧ φ x < φ y)) := by
  induction l with
  | nil => simp [insCnt]
  | cons b l ih =>
    rw [List.pairwise_cons] at hl
    obtain ⟨hb, hl⟩ := hl
    unfold insCnt
    by_cases h : b.2 ≤ a.2
    · rw [if_pos h]
      refine List.Pairwise.cons (fun x hx => ?_) (List.Pairwise.cons hb hl)
      rcases List.mem_cons.mp hx with rfl | hx2
      · rcases Nat.lt_or_ge x.2 a.2 with hlt | hge
        · exact Or.inl hlt
        · have heq : a.2 = x.2 := Nat.le_antisymm hge h
          exact Or.inr ⟨heq, ha x (List.mem_cons_self x l) heq⟩
      · rcases hb x hx2 with hxb | ⟨heq, _⟩
        · exact Or.inl (Nat.lt_of_lt_of_le hxb h)
        · rcases Nat.lt_or_ge b.2 a.2 with hlt | hge
          · exact Or.inl (by omega)
          · have hax : a.2 = x.2 := by omega
            exact Or.inr ⟨hax, ha x (List.mem_cons_of_mem b hx2) hax⟩
    · rw [if_neg h]
      refine List.Pairwise.cons (fun y hy => ?_)
        (ih hl (fun x hx he => ha x (List.mem_cons_of_mem b hx) he))
      rcases (mem_insCnt y a l).mp hy with rfl | hy2
      · exact Or.inl (by omega)
      · exact hb y hy2

lemma sortCnt_pairwise (φ : String × Nat → Nat) (l : List (String × Nat))
    (hl : l.Pairwise (fun x y => x.2 = y.2 → φ x < φ y)) :
    (sortCnt l).Pairwise (fun x y => y.2 < x.2 ∨ (x.2 = y.2 ∧ φ x < φ y)) := by
  induction l with
  | nil => simp [sortCnt]
  | cons a l ih =>
    rw [List.pairwise_cons] at hl
    exact insCnt_pairwise φ a (sortCnt l) (ih hl.2)
      (fun x hx he => hl.1 x ((mem_sortCnt x l).mp hx) he)

/-- C5: the top-categories view has at most n entries (exactly n when at
least n distinct collision types remain), each entry carries the occurrence
count of a collision type present in the data, and entries are sorted by
descending count with ties in order of first appearance. -/
theorem topCategories_spec (rs : List CrashRecord) :
    (topCategories rs 5).length ≤ 5 ∧
    (topCategories rs 5).length = min 5 (firstSeen (rs.map CrashRecord.collisionType)).length ∧
    (∀ p ∈ topCategories rs 5, p.1 ∈ rs.map CrashRecord.collisionType ∧ p.2 = catCount rs p.1) ∧
    (topCategories rs 5).Pairwise
      (fun a b => b.2 < a.2 ∨ (a.2 = b.2 ∧ firstIdx rs a.1 < firstIdx rs b.1)) := by
  refine ⟨?_, ?_, fun p hp => ?_, ?_⟩
  · simp [topCategories]
  · simp [topCategories, length_sortCnt, catCounts]
  · have hp2 : p ∈ sortCnt (catCounts rs) := List.mem_of_mem_take hp
    have hp3 : p ∈ catCounts rs := (mem_sortCnt p (catCounts rs)).mp hp2
    obtain ⟨c, hc, rfl⟩ := List.mem_map.mp hp3
    exact ⟨(mem_firstSeen c _).mp hc, rfl⟩
  · refine List.Pairwise.sublist (List.take_sublist 5 _) ?_
    refine sortCnt_pairwise (fun p => firstIdx rs p.1) (catCounts rs) ?_
    unfold catCounts
    rw [List.pairwise_map]
    refine List.Pairwise.imp ?_ (firstSeen_pairwise_indexOf (rs.map CrashRecord.collisionType))
    intro a b hab
    exact fun _ => hab

/-- df['YearMonth'] = pd.to_datetime(df['CRASHDATETIME']).dt.to_period('M'):
the calendar year and month of the timestamp. -/
def CrashRecord.yearMonth (r : CrashRecord) : Int × Nat :=
  (r.crashDateTime.year, r.crashDateTime.month)

/-- Chronological order on year-month periods. -/
def ymLt (a b : Int × Nat) : Prop :=
  a.1 < b.1 ∨ (a.1 = b.1 ∧ a.2 < b.2)

/-- Boolean form of the chronological order. -/
def ymLtB (a b : Int × Nat) : Bool :=
  decide (a.1 < b.1) || (decide (a.1 = b.1) && decide (a.2 < b.2))

lemma ymLtB_eq_true (a b : Int × Nat) : ymLtB a b = true ↔ ymLt a b := by
  unfold ymLtB ymLt
  simp

lemma ymLt_trans (a b c : Int × Nat) (h1 : ymLt a b) (h2 : ymLt b c) : ymLt a c := by
  unfold ymLt at *
  omega

lemma ymLt_resolve (a b : Int × Nat) (h : ¬ ymLt a b) (hne : a ≠ b) : ymLt b a := by
  have hne2 : a.1 ≠ b.1 ∨ a.2 ≠ b.2 := by
    by_contra hc
    push_neg at hc
    exact hne (Prod.ext_iff.mpr hc)
  unfold ymLt at *
  omega

/-- Insert a year-month key into a chronologically sorted key list. -/
def insYM (a : Int × Nat) : List (Int × Nat) → List (Int × Nat)
  | [] => [a]
  | b :: l => if ymLtB a b then a :: b :: l else b :: insYM a l

/-- Sort the distinct bucket keys chronologically, as groupby does. -/
def sortYM : List (Int × Nat) → List (Int × Nat)
  | [] => []
  | a :: l => insYM a (sortYM l)

/-- crashes_over_time = df.groupby('YearMonth').size(): each bucket key that
occurs, in chronological order, with the number of records in the bucket. -/
def timeSeries (rs : List CrashRecord) : List ((Int × Nat) × Nat) :=
  (sortYM (firstSeen (rs.map CrashRecord.yearMonth))).map
    (fun k => (k, rs.countP (fun r => decide (r.yearMonth = k))))

lemma mem_insYM (x a : Int × Nat) :
    ∀ l : List (Int × Nat), x ∈ insYM a l ↔ x = a ∨ x ∈ l := by
  intro l
  induction l with
  | nil => simp [insYM]
  | cons b l ih =>
    unfold insYM
    by_cases h : ymLtB a b
    · rw [if_pos h]
      simp
    · rw [if_neg h]
      simp [ih]
      tauto

lemma mem_sortYM (x : Int × Nat) :
    ∀ l : List (Int × Nat), x ∈ sortYM l ↔ x ∈ l := by
  intro l
  induction l with
  | nil => simp [sortYM]
  | cons a l ih => simp [sortYM, mem_insYM, ih]

lemma insYM_pairwise (a : Int × Nat) (l : List (Int × Nat))
    (hl : l.Pairwise ymLt) (ha : a ∉ l) : (insYM a l).Pairwise ymLt := by
  induction l with
  | nil => simp [insYM]
  | cons b l ih =>
    rw [List.pairwise_cons] at hl
    obtain ⟨hb, hl⟩ := hl
    have hab : a ≠ b := fun he => ha (he ▸ List.mem_cons_self b l)
    have hal : a ∉ l := fun he => ha (List.mem_cons_of_mem b he)
    unfold insYM
    by_cases h : ymLtB a b
    · rw [if_pos h]
      have hab2 : ymLt a b := (ymLtB_eq_true a b).mp h
      refine List.Pairwise.cons (fun x hx => ?_) (List.Pairwise.cons hb hl)
      rcases List.mem_cons.mp hx with rfl | hx2
      · exact hab2
      · exact ymLt_trans a b x hab2 (hb x hx2)
    · rw [if_neg h]
      have hba : ymLt b a :=
        ymLt_resolve a b (fun hc => h ((ymLtB_eq_true a b).mpr hc)) hab
      refine List.Pairwise.cons (fun y hy => ?_) (ih hl hal)
      rcases (mem_insYM y a l).mp hy with rfl | hy2
      · exact hba
      · exact hb y hy2

lemma sortYM_pairwise (l : List (Int × Nat)) (hl : l.Nodup) :
    (sortYM l).Pairwise ymLt := by
  induction l with
  | nil => simp [sortYM]
  | cons a l ih =>
    rw [List.nodup_cons] at hl
    exact insYM_pairwise a (sortYM l) (ih hl.2)
      (fun hm => hl.1 ((mem_sortYM a l).mp hm))

lemma timeSeries_keys (rs : List CrashRecord) :
    (timeSeries rs).map Prod.fst = sortYM (firstSeen (rs.map CrashRecord.yearMonth)) := by
  unfold timeSeries
  rw [List.map_map]
  exact List.map_id _

/-- C6: the time-series buckets records by the calendar year and month of the
timestamp, its keys are strictly increasing chronologically, every key maps to
the count of its bucket, which is at least 1, and every key present comes from
some record (no zero-count month is synthesized). -/
theorem timeSeries_spec (rs : List CrashRecord) :
    ((timeSeries rs).map Prod.fst).Pairwise ymLt ∧
    (∀ p ∈ timeSeries rs,
      p.2 = rs.countP (fun r => decide (r.yearMonth = p.1)) ∧
      1 ≤ p.2 ∧ p.1 ∈ rs.map CrashRecord.yearMonth) ∧
    (∀ r ∈ rs, r.yearMonth ∈ (timeSeries rs).map Prod.fst) := by
  refine ⟨?_, fun p hp => ?_, fun r hr => ?_⟩
  · rw [timeSeries_keys]
    exact sortYM_pairwise _ (firstSeen_nodup _)
  · obtain ⟨k, hk, rfl⟩ := List.mem_map.mp hp
    have hk2 : k ∈ rs.map CrashRecord.yearMonth :=
      (mem_firstSeen k _).mp ((mem_sortYM k _).mp hk)
    refine ⟨rfl, ?_, hk2⟩
    obtain ⟨r, hr, hrk⟩ := List.mem_map.mp hk2
    have : 0 < rs.countP (fun r => decide (r.yearMonth = k)) :=
      List.countP_pos_iff.mpr ⟨r, hr, by simp [hrk]⟩
    omega
  · rw [timeSeries_keys]
    exact (mem_sortYM _ _).mpr ((mem_firstSeen _ _).mpr (List.mem_map_of_mem _ hr))

/-- heat_data = list(zip(df['LATITUDE'], df['LONGITUDE'])): one pair per
record, nulls passed through. -/
def coordinates (rs : List CrashRecord) : List (Option Rat × Option Rat) :=
  rs.map (fun r => (r.latitude, r.longitude))

/-- Number of records with both coordinates present. -/
def coordCount (rs : List CrashRecord) : Nat :=
  rs.countP (fun r => r.latitude.isSome && r.longitude.isSome)

/-- A record whose coordinate cells are null. -/
def noCoordRec : CrashRecord :=
  { sampleRec with latitude := none, longitude := none }

/-- C7 counterexample: on a record with null coordinates the coordinate list
still has one entry, so its length differs from the number of records with
both coordinates present, and the record is not excluded. -/
theorem coordinates_counterexample :
    (coordinates [noCoordRec]).length ≠ coordCount [noCoordRec] := by
  decide

/-- C7 amended: the coordinate list has one (latitude, longitude) pair per
filtered record in order, records with a missing coordinate included with
their null entries rather than excluded. -/
theorem coordinates_one_pair_per_record (rs : List CrashRecord) :
    (coordinates rs).length = rs.length ∧
    (∀ i : Nat, (coordinates rs)[i]? = rs[i]?.map (fun r => (r.latitude, r.longitude))) := by
  refine ⟨List.length_map rs _, fun i => ?_⟩
  simp [coordinates]

/-- C8: when the filtered set is empty, all three derived views are empty. -/
theorem empty_filter_empty_views (c : FilterCriteria) (rs : List CrashRecord)
    (h : filterRecords c rs = []) :
    topCategories (filterRecords c rs) 5 = [] ∧
    timeSeries (filterRecords c rs) = [] ∧
    coordinates (filterRecords c rs) = [] := by
  rw [h]
  exact ⟨rfl, rfl, rfl⟩

theorem empty_filter_empty_views_witness :
    topCategories (filterRecords cAll []) 5 = [] ∧
    timeSeries (filterRecords cAll []) = [] ∧
    coordinates (filterRecords cAll []) = [] :=
  empty_filter_empty_views cAll [] rfl

/-- The row of features the ML.PREDICT subquery sends: one column per
user-selected input. -/
structure PredictionFeatures where
  collisionType : String
  primaryCollisionFactor : String
  weather : String
  roadwaySurface : String
  lighting : String
  minorInjuries : Nat
  severeInjuries : Nat
  deriving DecidableEq

/-- The SELECT ... AS ... subquery of the prediction call, built from the
widget values. -/
def buildRequest (ct pf w rsf lg : String) (mi si : Nat) : PredictionFeatures :=
  ⟨ct, pf, w, rsf, lg, mi, si⟩

/-- "Fatal" if prediction_df["predicted_is_fatal"][0] == 1 else "Non-Fatal" -/
def predictedSeverity (p : Int) : String :=
  if p = 1 then "Fatal" else "Non-Fatal"

/-- C10: the prediction request carries exactly the user-selected feature
values, and the binary result is read as "Fatal" on 1 and "Non-Fatal" on 0. -/
theorem prediction_passthrough (ct pf w rsf lg : String) (mi si : Nat) :
    ((buildRequest ct pf w rsf lg mi si).collisionType = ct ∧
     (buildRequest ct pf w rsf lg mi si).primaryCollisionFactor = pf ∧
     (buildRequest ct pf w rsf lg mi si).weather = w ∧
     (buildRequest ct pf w rsf lg mi si).roadwaySurface = rsf ∧
     (buildRequest ct pf w rsf lg mi si).lighting = lg ∧
     (buildRequest ct pf w rsf lg mi si).minorInjuries = mi ∧
     (buildRequest ct pf w rsf lg mi si).severeInjuries = si) ∧
    predictedSeverity 1 = "Fatal" ∧ predictedSeverity 0 = "Non-Fatal" := by
  exact ⟨⟨rfl, rfl, rfl, rfl, rfl, rfl, rfl⟩, rfl, by decide⟩
